import Mathlib

/-!
Shallow embedding of the `gtasks-rs` client library (files `src/errors.rs`,
`src/http.rs`, `src/lib.rs`, `src/tasklists.rs`, `src/tasks.rs`).

HTTP requests are modelled as records of method, URL, headers, query pairs
and an optional JSON body; the network is a caller-supplied function from
requests to responses.  Each resource operation returns the list of requests
it handed to the transport together with its `Result` value, so that
"zero network calls" statements are directly expressible.
-/

namespace GTasks

/-- A JSON value, the image of `serde_json` serialization. -/
inductive Json where
  | null : Json
  | bool (b : Bool) : Json
  | num (n : Int) : Json
  | str (s : String) : Json
  | arr (xs : List Json) : Json
  | obj (fields : List (String × Json)) : Json

/-- The keys of a JSON object (empty for non-objects). -/
def Json.objKeys : Json → List String
  | .obj fields => fields.map Prod.fst
  | _ => []

/-- Whether a JSON object has a field named `k`. -/
def Json.hasKey (j : Json) (k : String) : Bool :=
  j.objKeys.any (fun s => s == k)

/-- serde `#[serde(skip_serializing_if = "Option::is_none")]`: a `None`
field contributes no entry to the serialized object. -/
def optField (name : String) (v : Option Json) : List (String × Json) :=
  match v with
  | none => []
  | some j => [(name, j)]

/-- HTTP method of a request builder (`client.get`, `.post`, `.put`,
`.patch`, `.delete`). -/
inductive Method where
  | get | post | put | patch | delete
deriving DecidableEq, Repr

/-- An unsent HTTP request: what `reqwest::RequestBuilder` accumulates.
`body = none` models a builder on which `.body(..)` was never called,
i.e. a zero-length body. Header names are stored lowercased, as
`reqwest::header` normalizes them. -/
structure Request where
  method : Method
  url : String
  headers : List (String × String)
  query : List (String × String)
  body : Option Json

/-- First value of header `k`, as `HeaderMap::get`. -/
def Request.getHeader (r : Request) (k : String) : Option String :=
  (r.headers.find? (fun p => p.1 == k)).map Prod.snd

/-- `HeaderMap::insert`: replaces every existing value of the key with the
single new value. -/
def headerInsert (hs : List (String × String)) (k v : String) :
    List (String × String) :=
  hs.filter (fun p => p.1 ≠ k) ++ [(k, v)]

/-- `http::HeaderValue::from_bytes` accepts a byte iff it is `\t` or lies
in `32..=255` excluding `127`; applied here to the code points of the
token string (tokens are ASCII in practice). -/
def headerValueValid (s : String) : Bool :=
  s.toList.all (fun c => c == '\t' || (32 ≤ c.toNat && c.toNat ≠ 127))

/-- `reqwest::Error`, split by the kinds the client distinguishes:
`decode` arises from `Response::json`, `transport` from the network. -/
inductive ReqwestErrorKind where
  | decode | transport
deriving DecidableEq, Repr

/-- A `reqwest::Error` value: its kind plus its message. -/
structure ReqwestError where
  kind : ReqwestErrorKind
  msg : String
deriving DecidableEq, Repr

/-- `errors::TasksError` (src/errors.rs). `httpError` wraps
`reqwest::Error`, `middlewareError` wraps `reqwest_middleware::Error`,
`jsonError` wraps `serde_json::Error`. -/
inductive TasksError where
  | httpError (e : ReqwestError)
  | middlewareError (msg : String)
  | jsonError (msg : String)
  | invalidArgument (msg : String)
  | responseError (body : String)
deriving DecidableEq, Repr

/-- `AuthMiddleware::handle` (src/http.rs lines 49-61) up to the call of
`next.run`: invoke the token provider; on provider error return it
without forwarding; on success insert the raw token as the
`Authorization` header value (no scheme text is prepended) and forward.
`.ok r` is exactly the request passed to `next.run`; `.error e` means
`next.run` was never invoked and `e` is surfaced to the caller as the
middleware error of the request. -/
def AuthMiddleware.handle (tokenProvider : Except String String)
    (req : Request) : Except String Request :=
  match tokenProvider with
  | .error e => .error e
  | .ok token =>
      if headerValueValid token then
        .ok { req with headers := headerInsert req.headers "authorization" token }
      else
        .error "failed to parse header value"

/-- `chrono::DateTime<Utc>`: kept abstract as its RFC 3339 rendering,
which is what both `serde_json` and query serialization emit. -/
structure DateTimeUtc where
  rfc3339 : String
deriving DecidableEq, Repr

/-- `tasks::TaskStatus`; `rename_all = "camelCase"` makes the variants
serialize as `"needsAction"` and `"completedStatus"`-style strings. -/
inductive TaskStatus where
  | needsAction | completed
deriving DecidableEq, Repr

/-- serde rendering of a `TaskStatus` value. -/
def TaskStatus.toJson : TaskStatus → Json
  | .needsAction => .str "needsAction"
  | .completed => .str "completed"

/-- `tasks::TaskLink`: all three fields are required; `task_type` is
renamed to `"type"` on the wire. -/
structure TaskLink where
  task_type : String
  description : String
  link : String
deriving DecidableEq, Repr

/-- serde rendering of a `TaskLink`. -/
def TaskLink.toJson (l : TaskLink) : Json :=
  .obj [("type", .str l.task_type),
        ("description", .str l.description),
        ("link", .str l.link)]

/-- `tasks::Task` (src/tasks.rs lines 28-102): every field is optional
and carries `skip_serializing_if = "Option::is_none"`. -/
structure Task where
  kind : Option String := none
  id : Option String := none
  etag : Option String := none
  title : Option String := none
  updated : Option DateTimeUtc := none
  self_link : Option String := none
  parent : Option String := none
  position : Option String := none
  notes : Option String := none
  status : Option TaskStatus := none
  due : Option DateTimeUtc := none
  completed : Option DateTimeUtc := none
  deleted : Option Bool := none
  hidden : Option Bool := none
  links : Option (List TaskLink) := none

/-- serde_json rendering of a `Task`: field order follows the struct,
names are camelCased, `None` fields are skipped. -/
def Task.toJson (t : Task) : Json :=
  .obj (optField "kind" (t.kind.map .str)
    ++ optField "id" (t.id.map .str)
    ++ optField "etag" (t.etag.map .str)
    ++ optField "title" (t.title.map .str)
    ++ optField "updated" (t.updated.map (fun d => .str d.rfc3339))
    ++ optField "selfLink" (t.self_link.map .str)
    ++ optField "parent" (t.parent.map .str)
    ++ optField "position" (t.position.map .str)
    ++ optField "notes" (t.notes.map .str)
    ++ optField "status" (t.status.map TaskStatus.toJson)
    ++ optField "due" (t.due.map (fun d => .str d.rfc3339))
    ++ optField "completed" (t.completed.map (fun d => .str d.rfc3339))
    ++ optField "deleted" (t.deleted.map .bool)
    ++ optField "hidden" (t.hidden.map .bool)
    ++ optField "links" (t.links.map (fun ls => .arr (ls.map TaskLink.toJson))))

/-- `tasks::Tasks`, the list-response shape (deserialize only). -/
structure Tasks where
  kind : String
  etag : String
  next_page_token : Option String := none
  items : Option (List Task) := none

/-- `tasklists::Tasklist` (src/tasklists.rs lines 25-51): every field is
optional and carries `skip_serializing_if = "Option::is_none"`. -/
structure Tasklist where
  kind : Option String := none
  id : Option String := none
  etag : Option String := none
  title : Option String := none
  updated : Option DateTimeUtc := none
  self_link : Option String := none

/-- serde_json rendering of a `Tasklist`. -/
def Tasklist.toJson (t : Tasklist) : Json :=
  .obj (optField "kind" (t.kind.map .str)
    ++ optField "id" (t.id.map .str)
    ++ optField "etag" (t.etag.map .str)
    ++ optField "title" (t.title.map .str)
    ++ optField "updated" (t.updated.map (fun d => .str d.rfc3339))
    ++ optField "selfLink" (t.self_link.map .str))

/-- `tasklists::Tasklists`, the list-response shape (deserialize only). -/
structure Tasklists where
  kind : String
  etag : String
  next_page_token : Option String := none
  items : List Tasklist := []

/-- `tasklists::ListOptions`. -/
structure TasklistsListOptions where
  max_results : Option Nat := none
  page_token : Option String := none

/-- `tasks::ListOptions`. -/
structure TasksListOptions where
  completed_max : Option String := none
  completed_min : Option String := none
  due_max : Option DateTimeUtc := none
  due_min : Option DateTimeUtc := none
  max_results : Option Nat := none
  page_token : Option String := none
  show_completed : Option Bool := none
  show_deleted : Option Bool := none
  show_hidden : Option Bool := none
  updated_min : Option DateTimeUtc := none

/-- `tasks::InsertOptions`. -/
structure InsertOptions where
  parent : Option String := none
  previous : Option String := none

/-- A `None` struct field contributes no query pair (serde_urlencoded). -/
def qOpt (name : String) (v : Option String) : List (String × String) :=
  match v with
  | none => []
  | some s => [(name, s)]

/-- Query rendering of `tasklists::ListOptions` (camelCase keys). -/
def TasklistsListOptions.toQuery (o : TasklistsListOptions) :
    List (String × String) :=
  qOpt "maxResults" (o.max_results.map toString)
    ++ qOpt "pageToken" o.page_token

/-- Query rendering of `tasks::ListOptions` (camelCase keys). -/
def TasksListOptions.toQuery (o : TasksListOptions) :
    List (String × String) :=
  qOpt "completedMax" o.completed_max
    ++ qOpt "completedMin" o.completed_min
    ++ qOpt "dueMax" (o.due_max.map DateTimeUtc.rfc3339)
    ++ qOpt "dueMin" (o.due_min.map DateTimeUtc.rfc3339)
    ++ qOpt "maxResults" (o.max_results.map toString)
    ++ qOpt "pageToken" o.page_token
    ++ qOpt "showCompleted" (o.show_completed.map (fun b => toString b))
    ++ qOpt "showDeleted" (o.show_deleted.map (fun b => toString b))
    ++ qOpt "showHidden" (o.show_hidden.map (fun b => toString b))
    ++ qOpt "updatedMin" (o.updated_min.map DateTimeUtc.rfc3339)

/-- Query rendering of `tasks::InsertOptions` (camelCase keys). -/
def InsertOptions.toQuery (o : InsertOptions) : List (String × String) :=
  qOpt "parent" o.parent ++ qOpt "previous" o.previous

/-- A completed `reqwest::Response`, abstracted to what the client
inspects: the status code, the result of `Response::text()` and the
result of `Response::json::<α>()` (both consume the body; the model
carries both outcomes so either consumption can be expressed). -/
structure Response (α : Type) where
  status : Nat
  text : Except ReqwestError String
  json : Except ReqwestError α

/-- `StatusCode::is_success`: `200..=299`. -/
def statusIsSuccess (s : Nat) : Bool :=
  decide (200 ≤ s) && decide (s < 300)

/-- `StatusCode::NOT_MODIFIED`. -/
def NOT_MODIFIED : Nat := 304

/-- `ensure_status_success` (src/lib.rs lines 143-149): a non-success
status turns the body text into `ResponseError`; the `?` on
`resp.text()` converts a text-read failure into `HttpError`. -/
def ensure_status_success (resp : Response α) :
    Except TasksError (Response α) :=
  if statusIsSuccess resp.status then
    .ok resp
  else
    match resp.text with
    | .ok bodyText => .error (.responseError bodyText)
    | .error e => .error (.httpError e)

/-- `resp.json::<α>().await?`: a decode failure becomes `HttpError` via
the `#[from] reqwest::Error` conversion. -/
def decodeJson (resp : Response α) : Except TasksError α :=
  match resp.json with
  | .ok v => .ok v
  | .error e => .error (.httpError e)

/-- `BASE_URL` (src/lib.rs). -/
def BASE_URL : String := "https://www.googleapis.com/tasks/v1"

/-- The transport seen by a resource operation: the middleware-wrapped
client maps each built request to a completed response. -/
def Transport (α : Type) := Request → Response α

/-- A resource operation's observable behaviour: the requests handed to
the transport, in order, and the value returned to the caller. -/
def OpResult (α : Type) := List Request × Except TasksError α

namespace TasksOps

/-- Request built by `tasks::list` (src/tasks.rs lines 170-187): GET on
the tasks collection, `If-None-Match` when an ETag was supplied, query
pairs from the options. -/
def listRequest (tasklistId : String) (opt : Option TasksListOptions)
    (etag : Option String) : Request :=
  { method := .get
    url := BASE_URL ++ "/lists/" ++ tasklistId ++ "/tasks"
    headers := match etag with
      | some ifNoneMatch => [("if-none-match", ifNoneMatch)]
      | none => []
    query := match opt with
      | some o => o.toQuery
      | none => []
    body := none }

/-- `tasks::list` (src/tasks.rs lines 170-199): send, then 304 maps to
`Ok(None)` before any success check or decode; otherwise require a
success status and decode the body as `Tasks`. -/
def list (tasklistId : String) (opt : Option TasksListOptions)
    (etag : Option String) (transport : Transport Tasks) :
    OpResult (Option Tasks) :=
  let req := listRequest tasklistId opt etag
  let resp := transport req
  ([req],
    if resp.status = NOT_MODIFIED then
      .ok none
    else
      match ensure_status_success resp with
      | .error e => .error e
      | .ok r =>
          match decodeJson r with
          | .ok v => .ok (some v)
          | .error e => .error e)

/-- Request built by `tasks::get` (src/tasks.rs lines 203-216). -/
def getRequest (tasklistId taskId : String) (etag : Option String) :
    Request :=
  { method := .get
    url := BASE_URL ++ "/lists/" ++ tasklistId ++ "/tasks/" ++ taskId
    headers := match etag with
      | some ifNoneMatch => [("if-none-match", ifNoneMatch)]
      | none => []
    query := []
    body := none }

/-- `tasks::get` (src/tasks.rs lines 203-226): same 304 handling as
`tasks::list`. -/
def get (tasklistId taskId : String) (etag : Option String)
    (transport : Transport Task) : OpResult (Option Task) :=
  let req := getRequest tasklistId taskId etag
  let resp := transport req
  ([req],
    if resp.status = NOT_MODIFIED then
      .ok none
    else
      match ensure_status_success resp with
      | .error e => .error e
      | .ok r =>
          match decodeJson r with
          | .ok v => .ok (some v)
          | .error e => .error e)

/-- `tasks::insert` (src/tasks.rs lines 241-263). -/
def insert (tasklistId : String) (v : Task) (opts : Option InsertOptions)
    (transport : Transport Task) : OpResult Task :=
  let req : Request :=
    { method := .post
      url := BASE_URL ++ "/lists/" ++ tasklistId ++ "/tasks"
      headers := []
      query := match opts with
        | some o => o.toQuery
        | none => []
      body := some v.toJson }
  let resp := transport req
  ([req],
    match ensure_status_success resp with
    | .error e => .error e
    | .ok r => decodeJson r)

/-- `tasks::update` (src/tasks.rs lines 266-289): a missing `id` is an
`InvalidArgument` returned before any request is built; otherwise
`v.updated` is set to `None` and the result PUT with the serialized
body. -/
def update (tasklistId : String) (v : Task) (transport : Transport Task) :
    OpResult Task :=
  match v.id with
  | none => ([], .error (.invalidArgument "task id cannot be None"))
  | some taskId =>
      let cleared := { v with updated := none }
      let req : Request :=
        { method := .put
          url := BASE_URL ++ "/lists/" ++ tasklistId ++ "/tasks/" ++ taskId
          headers := []
          query := []
          body := some cleared.toJson }
      let resp := transport req
      ([req],
        match ensure_status_success resp with
        | .error e => .error e
        | .ok r => decodeJson r)

/-- `tasks::delete` (src/tasks.rs lines 292-305). -/
def delete (tasklistId taskId : String) (transport : Transport Unit) :
    OpResult Unit :=
  let req : Request :=
    { method := .delete
      url := BASE_URL ++ "/lists/" ++ tasklistId ++ "/tasks/" ++ taskId
      headers := []
      query := []
      body := none }
  let resp := transport req
  ([req],
    match ensure_status_success resp with
    | .error e => .error e
    | .ok _ => .ok ())

/-- `tasks::clear` (src/tasks.rs lines 308-323): POST with no body and
an explicit `Content-Length: 0` header. -/
def clear (tasklistId : String) (transport : Transport Unit) :
    OpResult Unit :=
  let req : Request :=
    { method := .post
      url := BASE_URL ++ "/lists/" ++ tasklistId ++ "/clear"
      headers := [("content-length", "0")]
      query := []
      body := none }
  let resp := transport req
  ([req],
    match ensure_status_success resp with
    | .error e => .error e
    | .ok _ => .ok ())

/-- `tasks::move_task` (src/tasks.rs lines 327-349): POST with no body,
an explicit `Content-Length: 0` header and the options as query. -/
def move_task (tasklistId taskId : String) (opts : InsertOptions)
    (transport : Transport Task) : OpResult Task :=
  let req : Request :=
    { method := .post
      url := BASE_URL ++ "/lists/" ++ tasklistId ++ "/tasks/" ++ taskId
        ++ "/move"
      headers := [("content-length", "0")]
      query := opts.toQuery
      body := none }
  let resp := transport req
  ([req],
    match ensure_status_success resp with
    | .error e => .error e
    | .ok r => decodeJson r)

/-- `tasks::patch` (src/tasks.rs lines 352-367): serializes `v` as
given. -/
def patch (tasklistId taskId : String) (v : Task)
    (transport : Transport Task) : OpResult Task :=
  let req : Request :=
    { method := .patch
      url := BASE_URL ++ "/lists/" ++ tasklistId ++ "/tasks/" ++ taskId
      headers := []
      query := []
      body := some v.toJson }
  let resp := transport req
  ([req],
    match ensure_status_success resp with
    | .error e => .error e
    | .ok r => decodeJson r)

end TasksOps

namespace TasklistsOps

/-- `handle_response_tasklist` (src/tasklists.rs lines 152-155). -/
def handle_response_tasklist (resp : Response Tasklist) :
    Except TasksError Tasklist :=
  match ensure_status_success resp with
  | .error e => .error e
  | .ok r => decodeJson r

/-- Request built by `tasklists::list` (src/tasklists.rs lines 65-71):
note there is no ETag parameter and no `If-None-Match` header. -/
def listRequest (opt : Option TasklistsListOptions) : Request :=
  { method := .get
    url := BASE_URL ++ "/users/@me/lists"
    headers := []
    query := match opt with
      | some o => o.toQuery
      | none => []
    body := none }

/-- `tasklists::list` (src/tasklists.rs lines 65-77): every non-success
status, 304 included, goes through `ensure_status_success`. -/
def list (opt : Option TasklistsListOptions)
    (transport : Transport Tasklists) : OpResult Tasklists :=
  let req := listRequest opt
  let resp := transport req
  ([req],
    match ensure_status_success resp with
    | .error e => .error e
    | .ok r => decodeJson r)

/-- Request built by `tasklists::get` (src/tasklists.rs lines 80-88):
no ETag parameter, no `If-None-Match` header. -/
def getRequest (id : String) : Request :=
  { method := .get
    url := BASE_URL ++ "/users/@me/lists/" ++ id
    headers := []
    query := []
    body := none }

/-- `tasklists::get` (src/tasklists.rs lines 80-88). -/
def get (id : String) (transport : Transport Tasklist) :
    OpResult Tasklist :=
  let req := getRequest id
  let resp := transport req
  ([req], handle_response_tasklist resp)

/-- `tasklists::insert` (src/tasklists.rs lines 91-100). -/
def insert (b : Tasklist) (transport : Transport Tasklist) :
    OpResult Tasklist :=
  let req : Request :=
    { method := .post
      url := BASE_URL ++ "/users/@me/lists"
      headers := []
      query := []
      body := some b.toJson }
  let resp := transport req
  ([req], handle_response_tasklist resp)

/-- `tasklists::update` (src/tasklists.rs lines 103-121): a missing `id`
is an `InvalidArgument` returned before any request is built; the body
serializes `v` exactly as supplied — in particular `updated` is NOT
cleared here, unlike `tasks::update`. -/
def update (v : Tasklist) (transport : Transport Tasklist) :
    OpResult Tasklist :=
  match v.id with
  | none => ([], .error (.invalidArgument "tasklist id cannot be None"))
  | some tasklistId =>
      let req : Request :=
        { method := .put
          url := BASE_URL ++ "/users/@me/lists/" ++ tasklistId
          headers := []
          query := []
          body := some v.toJson }
      let resp := transport req
      ([req], handle_response_tasklist resp)

/-- `tasklists::delete` (src/tasklists.rs lines 124-134). -/
def delete (id : String) (transport : Transport Unit) : OpResult Unit :=
  let req : Request :=
    { method := .delete
      url := BASE_URL ++ "/users/@me/lists/" ++ id
      headers := []
      query := []
      body := none }
  let resp := transport req
  ([req],
    match ensure_status_success resp with
    | .error e => .error e
    | .ok _ => .ok ())

/-- `tasklists::patch` (src/tasklists.rs lines 137-149). -/
def patch (tasklistId : String) (v : Tasklist)
    (transport : Transport Tasklist) : OpResult Tasklist :=
  let req : Request :=
    { method := .patch
      url := BASE_URL ++ "/users/@me/lists/" ++ tasklistId
      headers := []
      query := []
      body := some v.toJson }
  let resp := transport req
  ([req], handle_response_tasklist resp)

end TasklistsOps

/-- A transport that returns the same response for every request. -/
def constTransport {α : Type} (r : Response α) : Transport α :=
  fun _ => r

/-- A caller-built request that already carries a (stale) Authorization
header, for exercising the middleware's overwrite behaviour. -/
def sampleGetRequest : Request :=
  { method := .get
    url := "https://example.test/resource"
    headers := [("authorization", "stale-value")]
    query := []
    body := none }

/-- A 200 response whose body does not parse as the expected payload. -/
def tasksDecodeFailResponse : Response Tasks :=
  { status := 200, text := .ok "garbage",
    json := .error ⟨.decode, "expected value at line 1 column 1"⟩ }

/-- A 304 response for the tasks collection; its body also fails to
decode, witnessing that the 304 path never attempts a decode. -/
def tasksResp304 : Response Tasks :=
  { status := 304, text := .ok "",
    json := .error ⟨.decode, "EOF while parsing a value"⟩ }

/-- A 304 response for a single task, body undecodable. -/
def taskResp304 : Response Task :=
  { status := 304, text := .ok "",
    json := .error ⟨.decode, "EOF while parsing a value"⟩ }

/-- A 304 response for the tasklists collection, with a body text. -/
def tasklistsResp304 : Response Tasklists :=
  { status := 304, text := .ok "not modified",
    json := .error ⟨.decode, "EOF while parsing a value"⟩ }

/-- A 304 response for a single tasklist, with a body text. -/
def tasklistResp304 : Response Tasklist :=
  { status := 304, text := .ok "not modified",
    json := .error ⟨.decode, "EOF while parsing a value"⟩ }

/-- A 404 rejection carrying a server diagnostic. -/
def notFoundResponse : Response Tasks :=
  { status := 404, text := .ok "Task not found",
    json := .error ⟨.decode, "expected value at line 1 column 1"⟩ }

/-- A successful single-task response. -/
def taskOkResponse : Response Task :=
  { status := 200, text := .ok "{}", json := .ok {} }

/-- A successful single-tasklist response. -/
def tasklistOkResponse : Response Tasklist :=
  { status := 200, text := .ok "{}", json := .ok {} }

/-- A tasklist whose caller populated the server-assigned `updated`
field before calling update. -/
def updatedTasklist : Tasklist :=
  { id := some "tl1", title := some "Groceries",
    updated := some ⟨"2024-01-02T03:04:05Z"⟩ }

/-- A task whose caller populated the server-assigned `updated` field
before calling update. -/
def updatedTask : Task :=
  { id := some "t1", title := some "Buy milk",
    updated := some ⟨"2024-01-02T03:04:05Z"⟩ }

/-- `Option.map` preserves `isSome`. -/
theorem isSome_omap {α β : Type} (f : α → β) (x : Option α) :
    (x.map f).isSome = x.isSome := by
  cases x <;> rfl

/-- Key membership over the serialization of one optional field. -/
theorem any_keys_optField (k n : String) (v : Option Json) :
    ((optField n v).map Prod.fst).any (fun s => s == k)
      = (v.isSome && (n == k)) := by
  cases v <;> simp [optField]

/-- A serialized `Task` mentions `"updated"` iff the field was set. -/
theorem toJson_hasKey_updated (t : Task) :
    (Task.toJson t).hasKey "updated" = t.updated.isSome := by
  simp [Task.toJson, Json.hasKey, Json.objKeys, any_keys_optField,
    isSome_omap]

/-- After `headerInsert`, looking the key up yields the new value. -/
theorem getHeader_headerInsert (hs : List (String × String)) (k v : String) :
    ((headerInsert hs k v).find? (fun p => p.1 == k)).map Prod.snd
      = some v := by
  induction hs with
  | nil => simp [headerInsert]
  | cons a t ih =>
      by_cases h : a.1 = k
      · simp [headerInsert, h] at ih ⊢
      · simp [headerInsert, h, List.find?] at ih ⊢

/-- C1 (counterexample): for the supplier result `"tok"`, the request
forwarded by `AuthMiddleware::handle` carries `Authorization: tok` —
the raw token, which differs from the `Bearer tok` the claim
requires. -/
theorem C1_counterexample :
    (AuthMiddleware.handle (.ok "tok") sampleGetRequest).map
        (fun r => r.getHeader "authorization") = .ok (some "tok")
    ∧ (some "tok" : Option String) ≠ some ("Bearer " ++ "tok") := by
  exact ⟨rfl, by decide⟩

/-- C1 (amended): when the credential supplier succeeds with token `t`
(and `t` is a valid header value), the forwarded request's
`Authorization` header equals exactly `t` — no `Bearer ` text is
prepended — and any Authorization header the caller had set is
overwritten. -/
theorem C1_auth_header_is_exact_token (t : String) (req : Request)
    (h : headerValueValid t = true) :
    AuthMiddleware.handle (.ok t) req
        = .ok { req with
                headers := headerInsert req.headers "authorization" t }
    ∧ Request.getHeader
        { req with headers := headerInsert req.headers "authorization" t }
        "authorization" = some t := by
  constructor
  · simp [AuthMiddleware.handle, h]
  · exact getHeader_headerInsert req.headers "authorization" t

/-- C1 witness: the amended statement at token `"witness-token"` and a
request that already carried an Authorization header. -/
theorem C1_auth_header_is_exact_token_witness :
    headerValueValid "witness-token" = true
    ∧ (AuthMiddleware.handle (.ok "witness-token") sampleGetRequest
        = .ok { sampleGetRequest with
                headers := headerInsert sampleGetRequest.headers
                  "authorization" "witness-token" }
      ∧ Request.getHeader
          { sampleGetRequest with
            headers := headerInsert sampleGetRequest.headers
              "authorization" "witness-token" }
          "authorization" = some "witness-token") :=
  ⟨by decide,
   C1_auth_header_is_exact_token "witness-token" sampleGetRequest
     (by decide)⟩

/-- C4: when the credential supplier fails with error `e`, the
middleware returns `e` as the request's failure and never forwards
the request to the wrapped transport (`next.run` is applied exactly to
the `.ok` payload, and there is none). -/
theorem C4_supplier_error_aborts (e : String) (req : Request) :
    AuthMiddleware.handle (.error e) req = .error e
    ∧ ∀ fwd : Request, AuthMiddleware.handle (.error e) req ≠ .ok fwd := by
  refine ⟨rfl, ?_⟩
  intro fwd h
  simp [AuthMiddleware.handle] at h

/-- C5: an update on an entity whose `id` is `None` returns
`InvalidArgument` and hands zero requests to the transport, for both
`tasks::update` and `tasklists::update`. -/
theorem C5_update_missing_id_no_network (tasklistId : String) (v : Task)
    (w : Tasklist) (tt : Transport Task) (wt : Transport Tasklist)
    (hv : v.id = none) (hw : w.id = none) :
    TasksOps.update tasklistId v tt
        = ([], .error (.invalidArgument "task id cannot be None"))
    ∧ TasklistsOps.update w wt
        = ([], .error (.invalidArgument "tasklist id cannot be None")) := by
  constructor
  · simp [TasksOps.update, hv]
  · simp [TasklistsOps.update, hw]

/-- C5 witness: the statement at the all-default task and tasklist. -/
theorem C5_update_missing_id_no_network_witness :
    ({} : Task).id = none ∧ ({} : Tasklist).id = none
    ∧ (TasksOps.update "l1" {} (constTransport taskOkResponse)
        = ([], .error (.invalidArgument "task id cannot be None"))
      ∧ TasklistsOps.update {} (constTransport tasklistOkResponse)
        = ([], .error (.invalidArgument "tasklist id cannot be None"))) :=
  ⟨rfl, rfl,
   C5_update_missing_id_no_network "l1" {} {}
     (constTransport taskOkResponse) (constTransport tasklistOkResponse)
     rfl rfl⟩

/-- C2 (counterexample): `tasklists::update` on a tasklist whose
`updated` field the caller populated sends a body that still contains
the `"updated"` member, with its non-null RFC 3339 value — the field is
neither omitted nor nulled. -/
theorem C2_counterexample :
    (TasklistsOps.update updatedTasklist
        (constTransport tasklistOkResponse)).1.filterMap Request.body
      = [Json.obj [("id", .str "tl1"), ("title", .str "Groceries"),
                   ("updated", .str "2024-01-02T03:04:05Z")]] := by
  rfl

/-- C2 (amended): `tasks::update` clears the client-supplied `updated`
field, so no body it sends contains an `"updated"` member; but
`tasklists::update` serializes the tasklist exactly as supplied, so a
populated `updated` field is sent. -/
theorem C2_update_clears_updated_tasks_only (tasklistId : String)
    (v : Task) (tt : Transport Task) (w : Tasklist)
    (wt : Transport Tasklist) (i : String) (hw : w.id = some i) :
    ((TasksOps.update tasklistId v tt).1.filterMap Request.body).all
        (fun j => !(j.hasKey "updated")) = true
    ∧ (TasklistsOps.update w wt).1.filterMap Request.body
        = [w.toJson] := by
  constructor
  · cases hv : v.id with
    | none => simp [TasksOps.update, hv]
    | some taskId => simp [TasksOps.update, hv, toJson_hasKey_updated]
  · simp [TasklistsOps.update, hw]

/-- C2 witness: the amended statement at concrete entities whose
`updated` fields are populated. -/
theorem C2_update_clears_updated_tasks_only_witness :
    updatedTasklist.id = some "tl1"
    ∧ (((TasksOps.update "l1" updatedTask
          (constTransport taskOkResponse)).1.filterMap Request.body).all
          (fun j => !(j.hasKey "updated")) = true
      ∧ (TasklistsOps.update updatedTasklist
          (constTransport tasklistOkResponse)).1.filterMap Request.body
          = [updatedTasklist.toJson]) :=
  ⟨rfl,
   C2_update_clears_updated_tasks_only "l1" updatedTask
     (constTransport taskOkResponse) updatedTasklist
     (constTransport tasklistOkResponse) "tl1" rfl⟩

/-- C3: a success-status response whose body fails to decode makes the
operation return the decode error (`HttpError` of kind `decode`, the
image of `reqwest::Error` from `Response::json`), which is neither a
success value nor the `ResponseError` rejection outcome. -/
theorem C3_decode_failure_is_distinct_error (tasklistId : String)
    (opt : Option TasksListOptions) (etag : Option String)
    (resp : Response Tasks) (msg : String)
    (hs : statusIsSuccess resp.status = true)
    (hj : resp.json = .error ⟨.decode, msg⟩) :
    (TasksOps.list tasklistId opt etag (constTransport resp)).2
        = .error (.httpError ⟨.decode, msg⟩)
    ∧ (∀ v, (TasksOps.list tasklistId opt etag (constTransport resp)).2
        ≠ .ok v)
    ∧ ∀ b, (TasksOps.list tasklistId opt etag (constTransport resp)).2
        ≠ .error (.responseError b) := by
  have h304 : resp.status ≠ NOT_MODIFIED := by
    intro h
    rw [NOT_MODIFIED] at h
    rw [h] at hs
    simp [statusIsSuccess] at hs
  have h1 : (TasksOps.list tasklistId opt etag (constTransport resp)).2
      = .error (.httpError ⟨.decode, msg⟩) := by
    simp [TasksOps.list, constTransport, h304, ensure_status_success, hs,
      decodeJson, hj]
  refine ⟨h1, ?_, ?_⟩
  · intro v hv
    rw [h1] at hv
    exact Except.noConfusion hv
  · intro b hb
    rw [h1] at hb
    simp at hb

/-- C3 witness: the statement at a 200 response with an undecodable
body. -/
theorem C3_decode_failure_is_distinct_error_witness :
    statusIsSuccess tasksDecodeFailResponse.status = true
    ∧ tasksDecodeFailResponse.json
        = .error ⟨.decode, "expected value at line 1 column 1"⟩
    ∧ ((TasksOps.list "l1" none none
          (constTransport tasksDecodeFailResponse)).2
        = .error (.httpError
            ⟨.decode, "expected value at line 1 column 1"⟩)
      ∧ (∀ v, (TasksOps.list "l1" none none
            (constTransport tasksDecodeFailResponse)).2 ≠ .ok v)
      ∧ ∀ b, (TasksOps.list "l1" none none
            (constTransport tasksDecodeFailResponse)).2
          ≠ .error (.responseError b)) :=
  ⟨by decide, rfl,
   C3_decode_failure_is_distinct_error "l1" none none
     tasksDecodeFailResponse "expected value at line 1 column 1"
     (by decide) rfl⟩

/-- C6 (counterexample): `tasks::list` called with NO prior ETag (so no
`If-None-Match` header is sent) still maps a 304 response to the
Unchanged outcome `Ok(None)` — the 304 path is not restricted to reads
that were given a prior ETag. -/
theorem C6_counterexample :
    (TasksOps.list "l1" none none (constTransport tasksResp304)).2
        = .ok none
    ∧ (TasksOps.listRequest "l1" none none).getHeader "if-none-match"
        = none := by
  exact ⟨rfl, rfl⟩

/-- C6 (amended): for `tasks::list` and `tasks::get`, any 304 response
yields `Ok(None)` with no body decode attempted (the response's decode
outcome is arbitrary, and may be a failure), whether or not an ETag was
supplied. -/
theorem C6_not_modified_is_unchanged (tasklistId taskId : String)
    (opt : Option TasksListOptions) (etagL etagG : Option String)
    (respL : Response Tasks) (respG : Response Task)
    (hL : respL.status = 304) (hG : respG.status = 304) :
    (TasksOps.list tasklistId opt etagL (constTransport respL)).2
        = .ok none
    ∧ (TasksOps.get tasklistId taskId etagG (constTransport respG)).2
        = .ok none := by
  constructor
  · simp [TasksOps.list, constTransport, NOT_MODIFIED, hL]
  · simp [TasksOps.get, constTransport, NOT_MODIFIED, hG]

/-- C6 witness: the amended statement at 304 responses whose bodies
would fail to decode, with a prior ETag supplied. -/
theorem C6_not_modified_is_unchanged_witness :
    tasksResp304.status = 304 ∧ taskResp304.status = 304
    ∧ ((TasksOps.list "l1" none (some "etag-abc")
          (constTransport tasksResp304)).2 = .ok none
      ∧ (TasksOps.get "l1" "t1" (some "etag-abc")
          (constTransport taskResp304)).2 = .ok none) :=
  ⟨rfl, rfl,
   C6_not_modified_is_unchanged "l1" "t1" none (some "etag-abc")
     (some "etag-abc") tasksResp304 taskResp304 rfl rfl⟩

/-- C7: on a non-success status, `ensure_status_success` returns
`ResponseError` carrying the body text verbatim, and a failure of the
body-text read itself becomes the wrapped `reqwest` (transport-level)
error via `HttpError`. -/
theorem C7_non_success_is_response_error {α : Type} (resp : Response α)
    (hs : statusIsSuccess resp.status = false) :
    ensure_status_success resp
      = match resp.text with
        | .ok bodyText => .error (.responseError bodyText)
        | .error e => .error (.httpError e) := by
  simp [ensure_status_success, hs]

/-- C7 witness: the statement at a 404 response whose body reads
`Task not found`. -/
theorem C7_non_success_is_response_error_witness :
    statusIsSuccess notFoundResponse.status = false
    ∧ ensure_status_success notFoundResponse
        = .error (.responseError "Task not found") :=
  ⟨by decide, C7_non_success_is_response_error notFoundResponse (by decide)⟩

/-- C8: for every `Task` and every `Tasklist`, the serialized body
mentions an optional field's key exactly when the field was set; in
particular every `None` field is omitted from the JSON output. -/
theorem C8_none_fields_omitted (t : Task) (l : Tasklist) :
    ((Task.toJson t).hasKey "kind" = t.kind.isSome
    ∧ (Task.toJson t).hasKey "id" = t.id.isSome
    ∧ (Task.toJson t).hasKey "etag" = t.etag.isSome
    ∧ (Task.toJson t).hasKey "title" = t.title.isSome
    ∧ (Task.toJson t).hasKey "updated" = t.updated.isSome
    ∧ (Task.toJson t).hasKey "selfLink" = t.self_link.isSome
    ∧ (Task.toJson t).hasKey "parent" = t.parent.isSome
    ∧ (Task.toJson t).hasKey "position" = t.position.isSome
    ∧ (Task.toJson t).hasKey "notes" = t.notes.isSome
    ∧ (Task.toJson t).hasKey "status" = t.status.isSome
    ∧ (Task.toJson t).hasKey "due" = t.due.isSome
    ∧ (Task.toJson t).hasKey "completed" = t.completed.isSome
    ∧ (Task.toJson t).hasKey "deleted" = t.deleted.isSome
    ∧ (Task.toJson t).hasKey "hidden" = t.hidden.isSome
    ∧ (Task.toJson t).hasKey "links" = t.links.isSome)
    ∧ ((Tasklist.toJson l).hasKey "kind" = l.kind.isSome
    ∧ (Tasklist.toJson l).hasKey "id" = l.id.isSome
    ∧ (Tasklist.toJson l).hasKey "etag" = l.etag.isSome
    ∧ (Tasklist.toJson l).hasKey "title" = l.title.isSome
    ∧ (Tasklist.toJson l).hasKey "updated" = l.updated.isSome
    ∧ (Tasklist.toJson l).hasKey "selfLink" = l.self_link.isSome) := by
  refine ⟨⟨?_, ?_, ?_, ?_, ?_, ?_, ?_, ?_, ?_, ?_, ?_, ?_, ?_, ?_, ?_⟩,
          ⟨?_, ?_, ?_, ?_, ?_, ?_⟩⟩ <;>
    simp [Task.toJson, Tasklist.toJson, Json.hasKey, Json.objKeys,
      any_keys_optField, isSome_omap]

/-- C9: `tasks::clear` and `tasks::move_task` each send exactly one
POST request, with no body (zero-length) and an explicit
`Content-Length: 0` header. -/
theorem C9_zero_length_posts (tasklistId taskId : String)
    (opts : InsertOptions) (tu : Transport Unit) (tt : Transport Task) :
    ((TasksOps.clear tasklistId tu).1.map Request.method = [.post]
      ∧ (TasksOps.clear tasklistId tu).1.map Request.body = [none]
      ∧ (TasksOps.clear tasklistId tu).1.map
          (fun r => r.getHeader "content-length") = [some "0"])
    ∧ ((TasksOps.move_task tasklistId taskId opts tt).1.map
          Request.method = [.post]
      ∧ (TasksOps.move_task tasklistId taskId opts tt).1.map
          Request.body = [none]
      ∧ (TasksOps.move_task tasklistId taskId opts tt).1.map
          (fun r => r.getHeader "content-length") = [some "0"]) := by
  exact ⟨⟨rfl, rfl, rfl⟩, ⟨rfl, rfl, rfl⟩⟩

/-- C10: the tasklist read operations build requests without any
`If-None-Match` header, and a 304 response to them is treated like any
other non-success status: it becomes `ResponseError` carrying the
response body text, never the Unchanged outcome. -/
theorem C10_tasklists_reads_never_unchanged
    (opt : Option TasklistsListOptions) (id : String)
    (respL : Response Tasklists) (respG : Response Tasklist)
    (bodyL bodyG : String)
    (hL : respL.status = 304) (hLt : respL.text = .ok bodyL)
    (hG : respG.status = 304) (hGt : respG.text = .ok bodyG) :
    (TasklistsOps.listRequest opt).getHeader "if-none-match" = none
    ∧ (TasklistsOps.getRequest id).getHeader "if-none-match" = none
    ∧ (TasklistsOps.list opt (constTransport respL)).2
        = .error (.responseError bodyL)
    ∧ (TasklistsOps.get id (constTransport respG)).2
        = .error (.responseError bodyG) := by
  refine ⟨rfl, rfl, ?_, ?_⟩
  · simp [TasklistsOps.list, constTransport, ensure_status_success,
      statusIsSuccess, hL, hLt]
  · simp [TasklistsOps.get, TasklistsOps.handle_response_tasklist,
      constTransport, ensure_status_success, statusIsSuccess, hG, hGt]

/-- C10 witness: the statement at concrete 304 responses whose bodies
read `not modified`. -/
theorem C10_tasklists_reads_never_unchanged_witness :
    tasklistsResp304.status = 304
    ∧ tasklistsResp304.text = .ok "not modified"
    ∧ tasklistResp304.status = 304
    ∧ tasklistResp304.text = .ok "not modified"
    ∧ ((TasklistsOps.listRequest none).getHeader "if-none-match" = none
      ∧ (TasklistsOps.getRequest "tl1").getHeader "if-none-match" = none
      ∧ (TasklistsOps.list none (constTransport tasklistsResp304)).2
          = .error (.responseError "not modified")
      ∧ (TasklistsOps.get "tl1" (constTransport tasklistResp304)).2
          = .error (.responseError "not modified")) :=
  ⟨rfl, rfl, rfl, rfl,
   C10_tasklists_reads_never_unchanged none "tl1" tasklistsResp304
     tasklistResp304 "not modified" "not modified" rfl rfl rfl rfl⟩

end GTasks
